import Mathlib

/-!
Shallow embedding of the ComInterface library (comserial.cpp, comsocket.cpp)
for checking its natural-language specification.

The embedding translates the decision logic of the C++ methods into pure
Lean functions. Interactions with the operating system and with boost::asio
(socket system calls, ioctl queries, the io_service event loop) are
modelled by explicit environment parameters recording the outcome each
collaborator reports; the functions then compute exactly what the C++
control flow computes from those outcomes.
-/

/-- Model of boost::system::error_code values distinguished by the code:
`ok` is the default (falsy) code, `operationAborted` is
boost::asio::error::operation_aborted (set when an asynchronous operation
is cancelled), `wouldBlock` is boost::asio::error::would_block,
`badDescriptor` stands for the error reported when an operation is applied
to a never-opened socket, and `otherError` covers every remaining code. -/
inductive ErrorCode where
  | ok
  | operationAborted
  | wouldBlock
  | badDescriptor
  | otherError
deriving DecidableEq, Repr

/-- Model of boost::asio::ip::address restricted to IPv4 dotted-quad
addresses, which is the subset exercised by the claims. A
default-constructed boost address is the IPv4 "any" address 0.0.0.0. -/
inductive IPAddress where
  | v4 (o1 o2 o3 o4 : Nat)
deriving DecidableEq, Repr

/-- boost::asio::ip::address::is_unspecified: true exactly for the all-zero
address. -/
def IPAddress.isUnspecified : IPAddress → Bool
  | .v4 a b c d => a = 0 && b = 0 && c = 0 && d = 0

/-- boost::asio::ip::address_v4::to_string for the modelled subset. -/
def IPAddress.toDotted : IPAddress → String
  | .v4 a b c d =>
      toString a ++ "." ++ toString b ++ "." ++ toString c ++ "." ++ toString d

/-- Split a character list into the groups separated by the dot character. -/
def splitDots (cs : List Char) : List (List Char) :=
  cs.foldr
    (fun c acc =>
      if c = '.' then [] :: acc
      else
        match acc with
        | g :: gs => (c :: g) :: gs
        | [] => [[c]])
    [[]]

/-- Parse one decimal octet of a dotted-quad address: one to three digit
characters with value at most 255. -/
def parseOctet (cs : List Char) : Option Nat :=
  if cs.length = 0 ∨ 3 < cs.length then none
  else if cs.all Char.isDigit then
    let v := cs.foldl (fun acc c => acc * 10 + (c.toNat - 48)) 0
    if v ≤ 255 then some v else none
  else none

/-- Modelled collaborator: boost::asio::ip::address::from_string restricted
to IPv4 dotted-quad strings (the IPv6 grammar is not needed by any claim).
Returns none exactly when boost would set the error code. -/
def fromDottedQuad (s : String) : Option IPAddress :=
  match splitDots s.toList with
  | [a, b, c, d] =>
      match parseOctet a, parseOctet b, parseOctet c, parseOctet d with
      | some oa, some ob, some oc, some od => some (IPAddress.v4 oa ob oc od)
      | _, _, _, _ => none
  | _ => none

/-- The configuration and open/closed state a ComSocket instance stores:
m_address, m_port, the three timeout durations (in whole milliseconds, as
stored by boost::posix_time::milliseconds and read back by
total_milliseconds), and whether m_socket is open. -/
structure SocketState where
  address : IPAddress
  port : Nat
  openTimeout : Nat
  readTimeout : Nat
  writeTimeout : Nat
  isOpen : Bool
deriving DecidableEq, Repr

/-- The member initialisation a freshly constructed ComSocket starts from:
default-constructed address (0.0.0.0), port 0, zero durations, socket
closed. The constructor body then runs the setters. -/
def initSocket : SocketState :=
  ⟨IPAddress.v4 0 0 0 0, 0, 0, 0, 0, false⟩

/-- ComSocket::SetAddress (comsocket.cpp lines 360-376): an empty string
stores a default-constructed (unspecified) address and succeeds; otherwise
the string is parsed, a parse failure stores the default address and
returns false, a parse success stores the parsed address and returns
true. -/
def ComSocket.SetAddress (address : String) (st : SocketState) : Bool × SocketState :=
  if address = "" then
    (true, { st with address := IPAddress.v4 0 0 0 0 })
  else
    match fromDottedQuad address with
    | some a => (true, { st with address := a })
    | none => (false, { st with address := IPAddress.v4 0 0 0 0 })

/-- ComSocket::GetAddress (comsocket.cpp lines 378-387): the empty string
when the stored address is unspecified, else its textual form. -/
def ComSocket.GetAddress (st : SocketState) : String :=
  if st.address.isUnspecified then "" else st.address.toDotted

/-- ComSocket::SetPort (comsocket.cpp lines 389-400). -/
def ComSocket.SetPort (port : Nat) (st : SocketState) : Bool × SocketState :=
  if 65535 < port then (false, st) else (true, { st with port := port })

/-- ComSocket::SetOpenTimeout (comsocket.cpp lines 339-350): rejects 0,
otherwise stores the value. -/
def ComSocket.SetOpenTimeout (t : Nat) (st : SocketState) : Bool × SocketState :=
  if t = 0 then (false, st) else (true, { st with openTimeout := t })

/-- ComSocket::GetOpenTimeout (comsocket.cpp lines 352-358). -/
def ComSocket.GetOpenTimeout (st : SocketState) : Nat :=
  st.openTimeout

/-- ComSocket::SetReadTimeout (comsocket.cpp lines 318-329). -/
def ComSocket.SetReadTimeout (t : Nat) (st : SocketState) : Bool × SocketState :=
  if t = 0 then (false, st) else (true, { st with readTimeout := t })

/-- ComSocket::GetReadTimeout (comsocket.cpp lines 331-337). -/
def ComSocket.GetReadTimeout (st : SocketState) : Nat :=
  st.readTimeout

/-- ComSocket::SetWriteTimeout (comsocket.cpp lines 297-308). -/
def ComSocket.SetWriteTimeout (t : Nat) (st : SocketState) : Bool × SocketState :=
  if t = 0 then (false, st) else (true, { st with writeTimeout := t })

/-- ComSocket::GetWriteTimeout (comsocket.cpp lines 310-316). -/
def ComSocket.GetWriteTimeout (st : SocketState) : Nat :=
  st.writeTimeout

/-- ComSocket::ComSocket (comsocket.cpp lines 22-37): runs SetAddress,
SetPort, SetOpenTimeout, SetWriteTimeout, SetReadTimeout in that order
(the last three short-circuit) and throws std::invalid_argument at the
first failure. Modelled as Except, the error string being the thrown
message. No operating-system resource is touched on any path. -/
def ComSocket.construct (address : String) (port : Nat) (timeout : Nat) :
    Except String SocketState :=
  let r1 := ComSocket.SetAddress address initSocket
  if r1.1 = false then Except.error "invalid IP address" else
  let r2 := ComSocket.SetPort port r1.2
  if r2.1 = false then Except.error "invalid TCP port" else
  let r3 := ComSocket.SetOpenTimeout timeout r2.2
  if r3.1 = false then Except.error "invalid timeout value" else
  let r4 := ComSocket.SetWriteTimeout timeout r3.2
  if r4.1 = false then Except.error "invalid timeout value" else
  let r5 := ComSocket.SetReadTimeout timeout r4.2
  if r5.1 = false then Except.error "invalid timeout value" else
  Except.ok r5.2

/-- Whether a construction attempt was rejected with a configuration
error. -/
def isConfigError {α : Type} : Except String α → Bool
  | .error _ => true
  | .ok _ => false

/-- The two use modes of a ComSocket. -/
inductive Mode where
  | server
  | client
deriving DecidableEq, Repr

/-- The branch ComSocket::Open takes (comsocket.cpp line 62): server when
the stored address is unspecified, client otherwise. -/
def ComSocket.openMode (st : SocketState) : Mode :=
  if st.address.isUnspecified then Mode.server else Mode.client

/-- ComSocket::open_handler (comsocket.cpp lines 414-427): the boolean it
writes through ret_code. A completion whose error code is absent or equal
to operation_aborted is recorded as success (true); every other error code
is recorded as failure (false). -/
def ComSocket.open_handler (error : ErrorCode) : Bool :=
  if error ≠ ErrorCode.ok ∧ error ≠ ErrorCode.operationAborted then false
  else true

/-- ComSocket::read_write_handler (comsocket.cpp lines 429-443): the int it
writes through ret_code. A completion whose error code is absent or equal
to operation_aborted is recorded as the number of bytes transferred;
every other error code is recorded as -1. -/
def ComSocket.read_write_handler (error : ErrorCode) (bytesTransferred : Nat) : Int :=
  if error ≠ ErrorCode.ok ∧ error ≠ ErrorCode.operationAborted then -1
  else (bytesTransferred : Int)

/-- ComSocket::timeout_handler (comsocket.cpp lines 445-456): returns
whether the handler cancels the pending socket operation. It does nothing
when the timer was itself cancelled (operation_aborted) and cancels the
socket operation otherwise (the timer expired). -/
def ComSocket.timeout_handler_cancels (error : ErrorCode) : Bool :=
  if error = ErrorCode.operationAborted then false else true

/-- ComSocket::timeout_accept_handler (comsocket.cpp lines 458-469): same
shape as timeout_handler but cancels the acceptor. -/
def ComSocket.timeout_accept_handler_cancels (error : ErrorCode) : Bool :=
  if error = ErrorCode.operationAborted then false else true

/-- Which of the two armed events the io_service delivers first during a
blocking Read/Write: either the asynchronous transfer completes (with an
error code and a byte count), or the deadline timer fires while the
transfer has moved the given number of bytes so far. When the timer fires
first, its handler cancels the transfer, which then completes with
operation_aborted carrying the bytes already moved. -/
inductive IOFirst where
  | ioCompleted (ec : ErrorCode) (bytes : Nat)
  | timerFired (bytesSoFar : Nat)
deriving DecidableEq, Repr

/-- The error code and byte count the read/write completion handler
observes for a given race outcome. -/
def ioCompletion : IOFirst → ErrorCode × Nat
  | .ioCompleted ec b => (ec, b)
  | .timerFired b => (ErrorCode.operationAborted, b)

/-- ComSocket::Read (comsocket.cpp lines 212-241): arms the read timer,
starts async_read with read_write_handler, and runs the io_service; the
returned int is whatever the handler wrote (the run itself reports no
error on these paths). -/
def ComSocket.ReadResult (f : IOFirst) : Int :=
  ComSocket.read_write_handler (ioCompletion f).1 (ioCompletion f).2

/-- ComSocket::Write (comsocket.cpp lines 243-272): same completion logic
as Read with the write timer. -/
def ComSocket.WriteResult (f : IOFirst) : Int :=
  ComSocket.read_write_handler (ioCompletion f).1 (ioCompletion f).2

/-- Which of the two armed events the io_service delivers first during
ComSocket::Open: the connect/accept completes with an error code, or the
open timer fires, whose handler then cancels the pending connect/accept so
that it completes with operation_aborted. -/
inductive OpenFirst where
  | ioCompleted (ec : ErrorCode)
  | timerFired
deriving DecidableEq, Repr

/-- The error code the open completion handler observes for a given race
outcome. -/
def openCompletion : OpenFirst → ErrorCode
  | .ioCompleted ec => ec
  | .timerFired => ErrorCode.operationAborted

/-- Environment outcomes consumed by one ComSocket::Open call:
whether the acceptor open/bind/listen sequence succeeds (server mode),
which open event the io_service delivers first, the error code of closing
the acceptor afterwards (server mode), and the error code of switching the
socket to non-blocking mode. -/
structure OpenEnv where
  acceptorSetupOk : Bool
  firstEvent : OpenFirst
  acceptorCloseEc : ErrorCode
  nonBlockingEc : ErrorCode
deriving DecidableEq, Repr

/-- ComSocket::Open (comsocket.cpp lines 44-136). Server mode (unspecified
address): a failed acceptor setup returns false; otherwise the accept/timer
race runs, open_handler records the result, the acceptor is closed (a close
error forces false), and finally the socket is switched to non-blocking
mode (a failure there closes the socket and forces false). Client mode:
the connect/timer race runs, open_handler records the result, then the
same non-blocking switch. The io_service run itself completes without
error on these paths. -/
def ComSocket.openResult (st : SocketState) (env : OpenEnv) : Bool :=
  if st.address.isUnspecified then
    if env.acceptorSetupOk = false then false
    else
      let ret := ComSocket.open_handler (openCompletion env.firstEvent)
      if env.acceptorCloseEc ≠ ErrorCode.ok then false
      else if env.nonBlockingEc ≠ ErrorCode.ok then false
      else ret
  else
    let ret := ComSocket.open_handler (openCompletion env.firstEvent)
    if env.nonBlockingEc ≠ ErrorCode.ok then false
    else ret

/-- ComSocket::Close (comsocket.cpp lines 138-154): closes the socket only
if it is open (boost releases the descriptor and marks the socket closed
even when the close reports an error) and returns false exactly when that
close reported an error; on an already-closed socket nothing is done and
the result is true. The osEc parameter is the error code the close call
would report, consulted only when the socket is open. -/
def ComSocket.Close (osEc : ErrorCode) (st : SocketState) : Bool × SocketState :=
  if st.isOpen then
    (if osEc ≠ ErrorCode.ok then false else true, { st with isOpen := false })
  else
    (true, st)

/-- The stop-bits option values of boost::asio::serial_port_base::stop_bits
(an enumeration with exactly these three enumerators). -/
inductive StopBits where
  | one
  | two
  | onepointfive
deriving DecidableEq, Repr

/-- The parity option values of boost::asio::serial_port_base::parity. -/
inductive Parity where
  | even
  | odd
  | none
deriving DecidableEq, Repr

/-- The flow-control option values of
boost::asio::serial_port_base::flow_control. -/
inductive FlowControl where
  | hardware
  | software
  | none
deriving DecidableEq, Repr

/-- The configuration and open/closed state a ComSerial instance stores:
m_device, the validated option objects (m_baud_rate, m_data_bits,
m_stop_bits, m_parity, m_flow_control), the two timeout durations in whole
milliseconds, and whether m_port is open. -/
structure SerialState where
  device : String
  baudRate : Nat
  dataBits : Nat
  stopBits : StopBits
  parity : Parity
  flowControl : FlowControl
  readTimeout : Nat
  writeTimeout : Nat
  isOpen : Bool
deriving DecidableEq, Repr

/-- The member initialisation a freshly constructed ComSerial starts from:
empty device, boost default option objects (baud_rate 0, character_size 8,
stop_bits one, parity none, flow_control none), zero durations, port
closed. The constructor body then runs the setters. -/
def initSerial : SerialState :=
  ⟨"", 0, 8, StopBits.one, Parity.none, FlowControl.none, 0, 0, false⟩

/-- ComSerial::SetDevice (comserial.cpp lines 297-308): rejects the empty
string, otherwise stores the device name. -/
def ComSerial.SetDevice (device : String) (st : SerialState) : Bool × SerialState :=
  if device = "" then (false, st) else (true, { st with device := device })

/-- ComSerial::GetDevice (comserial.cpp lines 310-316). -/
def ComSerial.GetDevice (st : SerialState) : String :=
  st.device

/-- ComSerial::SetBaudRate (comserial.cpp lines 318-336): rejects 0,
otherwise stores the rate (the boost baud_rate option constructor does not
throw, so the catch branch never fires). -/
def ComSerial.SetBaudRate (baudRate : Nat) (st : SerialState) : Bool × SerialState :=
  if baudRate = 0 then (false, st) else (true, { st with baudRate := baudRate })

/-- ComSerial::GetBaudRate (comserial.cpp lines 338-344). -/
def ComSerial.GetBaudRate (st : SerialState) : Nat :=
  st.baudRate

/-- ComSerial::SetDataBits (comserial.cpp lines 346-361): stores the value
(the boost character_size option constructor does not throw, so the catch
branch never fires and the setter always succeeds). -/
def ComSerial.SetDataBits (dataBits : Nat) (st : SerialState) : Bool × SerialState :=
  (true, { st with dataBits := dataBits })

/-- ComSerial::GetDataBits (comserial.cpp lines 363-369). -/
def ComSerial.GetDataBits (st : SerialState) : Nat :=
  st.dataBits

/-- ComSerial::SetStopBits (comserial.cpp lines 371-402): accepts exactly
the codes 1, 2 and 3, storing the corresponding boost stop_bits option
value, and rejects everything else. -/
def ComSerial.SetStopBits (stopBits : Nat) (st : SerialState) : Bool × SerialState :=
  match stopBits with
  | 1 => (true, { st with stopBits := StopBits.one })
  | 2 => (true, { st with stopBits := StopBits.two })
  | 3 => (true, { st with stopBits := StopBits.onepointfive })
  | _ => (false, st)

/-- ComSerial::GetStopBits (comserial.cpp lines 404-430): maps the stored
option value back to its code (the default branch returning 0 is
unreachable because the option type has exactly three values). -/
def ComSerial.GetStopBits (st : SerialState) : Nat :=
  match st.stopBits with
  | StopBits.one => 1
  | StopBits.two => 2
  | StopBits.onepointfive => 3

/-- ComSerial::SetParity (comserial.cpp lines 432-466): accepts the
character codes e, E, o, O, n and N, storing the corresponding boost
parity option value, and rejects every other character. -/
def ComSerial.SetParity (parity : Char) (st : SerialState) : Bool × SerialState :=
  if parity = 'e' ∨ parity = 'E' then (true, { st with parity := Parity.even })
  else if parity = 'o' ∨ parity = 'O' then (true, { st with parity := Parity.odd })
  else if parity = 'n' ∨ parity = 'N' then (true, { st with parity := Parity.none })
  else (false, st)

/-- ComSerial::GetParity (comserial.cpp lines 468-494): maps the stored
option value back to its lower-case code (the default branch returning the
null character is unreachable because the option type has exactly three
values). -/
def ComSerial.GetParity (st : SerialState) : Char :=
  match st.parity with
  | Parity.even => 'e'
  | Parity.odd => 'o'
  | Parity.none => 'n'

/-- ComSerial::SetFlowControl (comserial.cpp lines 496-523): accepts the
character codes h, H, s, S, n and N, storing the corresponding boost
flow_control option value, and rejects every other character. -/
def ComSerial.SetFlowControl (flowControl : Char) (st : SerialState) : Bool × SerialState :=
  if flowControl = 'h' ∨ flowControl = 'H' then
    (true, { st with flowControl := FlowControl.hardware })
  else if flowControl = 's' ∨ flowControl = 'S' then
    (true, { st with flowControl := FlowControl.software })
  else if flowControl = 'n' ∨ flowControl = 'N' then
    (true, { st with flowControl := FlowControl.none })
  else (false, st)

/-- ComSerial::GetFlowControl (comserial.cpp lines 525-551): maps the
stored option value back to its lower-case code (the default branch
returning the null character is unreachable because the option type has
exactly three values). -/
def ComSerial.GetFlowControl (st : SerialState) : Char :=
  match st.flowControl with
  | FlowControl.hardware => 'h'
  | FlowControl.software => 's'
  | FlowControl.none => 'n'

/-- ComSerial::SetReadTimeout (comserial.cpp lines 276-287): rejects 0,
otherwise stores the value. -/
def ComSerial.SetReadTimeout (t : Nat) (st : SerialState) : Bool × SerialState :=
  if t = 0 then (false, st) else (true, { st with readTimeout := t })

/-- ComSerial::GetReadTimeout (comserial.cpp lines 289-295). -/
def ComSerial.GetReadTimeout (st : SerialState) : Nat :=
  st.readTimeout

/-- ComSerial::SetWriteTimeout (comserial.cpp lines 255-266): rejects 0,
otherwise stores the value. -/
def ComSerial.SetWriteTimeout (t : Nat) (st : SerialState) : Bool × SerialState :=
  if t = 0 then (false, st) else (true, { st with writeTimeout := t })

/-- ComSerial::GetWriteTimeout (comserial.cpp lines 268-274). -/
def ComSerial.GetWriteTimeout (st : SerialState) : Nat :=
  st.writeTimeout

/-- ComSerial::ComSerial (comserial.cpp lines 23-48): runs SetDevice,
SetBaudRate, SetDataBits, SetStopBits, SetParity, SetFlowControl,
SetWriteTimeout, SetReadTimeout in that order (the last two
short-circuit) and throws std::invalid_argument at the first failure.
Modelled as Except, the error string being the thrown message. No
operating-system resource is touched on any path: the constructor only
validates values into option objects. -/
def ComSerial.construct (device : String) (baudRate dataBits stopBits : Nat)
    (parity flowControl : Char) (timeout : Nat) : Except String SerialState :=
  let r1 := ComSerial.SetDevice device initSerial
  if r1.1 = false then Except.error "invalid device name" else
  let r2 := ComSerial.SetBaudRate baudRate r1.2
  if r2.1 = false then Except.error "invalid baud rate" else
  let r3 := ComSerial.SetDataBits dataBits r2.2
  if r3.1 = false then Except.error "invalid data bits value" else
  let r4 := ComSerial.SetStopBits stopBits r3.2
  if r4.1 = false then Except.error "invalid stop bits value" else
  let r5 := ComSerial.SetParity parity r4.2
  if r5.1 = false then Except.error "invalid parity value" else
  let r6 := ComSerial.SetFlowControl flowControl r5.2
  if r6.1 = false then Except.error "invalid flow control value" else
  let r7 := ComSerial.SetWriteTimeout timeout r6.2
  if r7.1 = false then Except.error "invalid timeout value" else
  let r8 := ComSerial.SetReadTimeout timeout r7.2
  if r8.1 = false then Except.error "invalid timeout value" else
  Except.ok r8.2

/-- ComSerial::Close (comserial.cpp lines 101-117): same shape as
ComSocket::Close — nothing is done on an already-closed port and the
result is then true; an open port is closed (and marked closed) with the
result reporting whether the close succeeded. -/
def ComSerial.Close (osEc : ErrorCode) (st : SerialState) : Bool × SerialState :=
  if st.isOpen then
    (if osEc ≠ ErrorCode.ok then false else true, { st with isOpen := false })
  else
    (true, st)

/-- ComSerial::read_write_handler (comserial.cpp lines 588-602): identical
logic to the socket handler — operation_aborted is recorded as the byte
count, any other error as -1. -/
def ComSerial.read_write_handler (error : ErrorCode) (bytesTransferred : Nat) : Int :=
  if error ≠ ErrorCode.ok ∧ error ≠ ErrorCode.operationAborted then -1
  else (bytesTransferred : Int)

/-- ComSerial::timeout_handler (comserial.cpp lines 604-615): returns
whether the handler cancels the pending serial-port operation (it does
exactly when the timer was not itself cancelled). -/
def ComSerial.timeout_handler_cancels (error : ErrorCode) : Bool :=
  if error = ErrorCode.operationAborted then false else true

/-- ComSerial::Read (comserial.cpp lines 182-211): arms the read timer,
starts async_read with read_write_handler, and runs the io_service; the
returned int is whatever the handler wrote. -/
def ComSerial.ReadResult (f : IOFirst) : Int :=
  ComSerial.read_write_handler (ioCompletion f).1 (ioCompletion f).2

/-- ComSerial::Write (comserial.cpp lines 213-242): same completion logic
as Read with the write timer. -/
def ComSerial.WriteResult (f : IOFirst) : Int :=
  ComSerial.read_write_handler (ioCompletion f).1 (ioCompletion f).2

/-- Environment outcomes consumed by one ComSerial::ReadSome call: whether
the FIONREAD ioctl succeeds and the count it reports, plus the error code
and byte count the synchronous read_some call would report. -/
structure SerialReadEnv where
  ioctlOk : Bool
  availCount : Nat
  readEc : ErrorCode
  readBytes : Nat
deriving DecidableEq, Repr

/-- ComSerial::available_for_read (comserial.cpp lines 617-648): the count
the FIONREAD ioctl reports, or -1 when the ioctl fails. -/
def ComSerial.available_for_read (e : SerialReadEnv) : Int :=
  if e.ioctlOk then (e.availCount : Int) else -1

/-- ComSerial::ReadSome (comserial.cpp lines 127-150): queries
available_for_read and returns that value directly when it is at most 0;
only otherwise performs the synchronous read (whose error maps to -1).
The second component records whether the read was attempted. -/
def ComSerial.ReadSomeResult (e : SerialReadEnv) : Int × Bool :=
  let v := ComSerial.available_for_read e
  if v ≤ 0 then (v, false)
  else ((if e.readEc ≠ ErrorCode.ok then -1 else (e.readBytes : Int)), true)

/-- Environment outcomes consumed by one ComSerial::WriteSome call: whether
the TIOCOUTQ ioctl succeeds and the count it reports, plus the error code
and byte count the synchronous write_some call would report. -/
structure SerialWriteEnv where
  ioctlOk : Bool
  pendingCount : Nat
  writeEc : ErrorCode
  writeBytes : Nat
deriving DecidableEq, Repr

/-- ComSerial::pending_for_write (comserial.cpp lines 650-681): the count
the TIOCOUTQ ioctl reports, or -1 when the ioctl fails. -/
def ComSerial.pending_for_write (e : SerialWriteEnv) : Int :=
  if e.ioctlOk then (e.pendingCount : Int) else -1

/-- ComSerial::WriteSome (comserial.cpp lines 152-180): queries
pending_for_write; a nonzero answer is returned as 0 when positive and -1
when negative, without attempting the write; only a zero answer leads to
the synchronous write (whose error maps to -1). The second component
records whether the write was attempted. -/
def ComSerial.WriteSomeResult (e : SerialWriteEnv) : Int × Bool :=
  let p := ComSerial.pending_for_write e
  if p ≠ 0 then
    (if 0 < p then ((0 : Int), false) else ((-1 : Int), false))
  else ((if e.writeEc ≠ ErrorCode.ok then -1 else (e.writeBytes : Int)), true)

/-- C2: for every blocking Read or Write on either transport, when the
deadline timer fires first (its handler cancels the pending transfer, so
the transfer completes with operation_aborted) the call returns the bytes
already moved — possibly 0 — and never -1. -/
theorem c2_cancelled_transfer_reports_byte_count (b : Nat) :
    ComSocket.timeout_handler_cancels ErrorCode.ok = true ∧
    ComSerial.timeout_handler_cancels ErrorCode.ok = true ∧
    ComSocket.ReadResult (IOFirst.timerFired b) = (b : Int) ∧
    ComSocket.WriteResult (IOFirst.timerFired b) = (b : Int) ∧
    ComSerial.ReadResult (IOFirst.timerFired b) = (b : Int) ∧
    ComSerial.WriteResult (IOFirst.timerFired b) = (b : Int) ∧
    ComSocket.ReadResult (IOFirst.timerFired b) ≠ -1 ∧
    ComSerial.ReadResult (IOFirst.timerFired b) ≠ -1 := by
  refine ⟨rfl, rfl, ?_, ?_, ?_, ?_, ?_, ?_⟩ <;>
    simp [ComSocket.ReadResult, ComSocket.WriteResult, ComSerial.ReadResult,
          ComSerial.WriteResult, ComSocket.read_write_handler,
          ComSerial.read_write_handler, ioCompletion]

/-- C8: for both transports, Close on an already-closed instance succeeds
trivially (true, state untouched), and a second Close in a row returns
true whatever the first returned. -/
theorem c8_close_idempotent (ec1 ec2 ec3 ec4 : ErrorCode)
    (sk : SocketState) (sr : SerialState) :
    (sk.isOpen = false → ComSocket.Close ec1 sk = (true, sk)) ∧
    (ComSocket.Close ec2 (ComSocket.Close ec1 sk).2).1 = true ∧
    (sr.isOpen = false → ComSerial.Close ec3 sr = (true, sr)) ∧
    (ComSerial.Close ec4 (ComSerial.Close ec3 sr).2).1 = true := by
  cases hk : sk.isOpen <;> cases hr : sr.isOpen <;>
    simp [ComSocket.Close, ComSerial.Close, hk, hr]

/-- Witness for C8: a freshly constructed (closed) socket and serial
state. -/
theorem c8_close_idempotent_witness :
    initSocket.isOpen = false ∧
    ComSocket.Close ErrorCode.ok initSocket = (true, initSocket) ∧
    initSerial.isOpen = false ∧
    ComSerial.Close ErrorCode.ok initSerial = (true, initSerial) :=
  ⟨rfl,
   (c8_close_idempotent ErrorCode.ok ErrorCode.ok ErrorCode.ok ErrorCode.ok
      initSocket initSerial).1 rfl,
   rfl,
   (c8_close_idempotent ErrorCode.ok ErrorCode.ok ErrorCode.ok ErrorCode.ok
      initSocket initSerial).2.2.1 rfl⟩

/-- C5: every timeout setter (socket open/read/write, serial read/write)
rejects 0 leaving the stored value untouched, and accepts any positive
value, which the matching getter then returns. -/
theorem c5_timeout_setters (t : Nat) (sk : SocketState) (sr : SerialState) :
    (ComSocket.SetOpenTimeout 0 sk = (false, sk)) ∧
    (0 < t → (ComSocket.SetOpenTimeout t sk).1 = true ∧
      ComSocket.GetOpenTimeout (ComSocket.SetOpenTimeout t sk).2 = t) ∧
    (ComSocket.SetReadTimeout 0 sk = (false, sk)) ∧
    (0 < t → (ComSocket.SetReadTimeout t sk).1 = true ∧
      ComSocket.GetReadTimeout (ComSocket.SetReadTimeout t sk).2 = t) ∧
    (ComSocket.SetWriteTimeout 0 sk = (false, sk)) ∧
    (0 < t → (ComSocket.SetWriteTimeout t sk).1 = true ∧
      ComSocket.GetWriteTimeout (ComSocket.SetWriteTimeout t sk).2 = t) ∧
    (ComSerial.SetReadTimeout 0 sr = (false, sr)) ∧
    (0 < t → (ComSerial.SetReadTimeout t sr).1 = true ∧
      ComSerial.GetReadTimeout (ComSerial.SetReadTimeout t sr).2 = t) ∧
    (ComSerial.SetWriteTimeout 0 sr = (false, sr)) ∧
    (0 < t → (ComSerial.SetWriteTimeout t sr).1 = true ∧
      ComSerial.GetWriteTimeout (ComSerial.SetWriteTimeout t sr).2 = t) := by
  refine ⟨by simp [ComSocket.SetOpenTimeout], ?_,
          by simp [ComSocket.SetReadTimeout], ?_,
          by simp [ComSocket.SetWriteTimeout], ?_,
          by simp [ComSerial.SetReadTimeout], ?_,
          by simp [ComSerial.SetWriteTimeout], ?_⟩ <;>
    (intro ht
     have hne : t ≠ 0 := by omega
     simp [ComSocket.SetOpenTimeout, ComSocket.SetReadTimeout,
           ComSocket.SetWriteTimeout, ComSerial.SetReadTimeout,
           ComSerial.SetWriteTimeout, ComSocket.GetOpenTimeout,
           ComSocket.GetReadTimeout, ComSocket.GetWriteTimeout,
           ComSerial.GetReadTimeout, ComSerial.GetWriteTimeout, hne])

/-- Witness for C5: the value 7 is accepted by all five setters and read
back by the matching getters. -/
theorem c5_timeout_setters_witness :
    (0 : Nat) < 7 ∧
    ComSocket.GetOpenTimeout (ComSocket.SetOpenTimeout 7 initSocket).2 = 7 ∧
    ComSocket.GetReadTimeout (ComSocket.SetReadTimeout 7 initSocket).2 = 7 ∧
    ComSocket.GetWriteTimeout (ComSocket.SetWriteTimeout 7 initSocket).2 = 7 ∧
    ComSerial.GetReadTimeout (ComSerial.SetReadTimeout 7 initSerial).2 = 7 ∧
    ComSerial.GetWriteTimeout (ComSerial.SetWriteTimeout 7 initSerial).2 = 7 :=
  ⟨by decide,
   ((c5_timeout_setters 7 initSocket initSerial).2.1 (by decide)).2,
   ((c5_timeout_setters 7 initSocket initSerial).2.2.2.1 (by decide)).2,
   ((c5_timeout_setters 7 initSocket initSerial).2.2.2.2.2.1 (by decide)).2,
   ((c5_timeout_setters 7 initSocket initSerial).2.2.2.2.2.2.2.1 (by decide)).2,
   ((c5_timeout_setters 7 initSocket initSerial).2.2.2.2.2.2.2.2.2 (by decide)).2⟩

/-- C4: ComSerial::WriteSome returns 0 without attempting the OS write
when pending_for_write reports a positive count, returns -1 without
attempting the write when the query reports -1, and attempts the actual
write exactly when the pending count is 0. -/
theorem c4_writesome_backpressure :
    (∀ e : SerialWriteEnv, 0 < ComSerial.pending_for_write e →
      ComSerial.WriteSomeResult e = (0, false)) ∧
    (∀ e : SerialWriteEnv, ComSerial.pending_for_write e = -1 →
      ComSerial.WriteSomeResult e = (-1, false)) ∧
    (∀ e : SerialWriteEnv, ComSerial.pending_for_write e = 0 →
      (ComSerial.WriteSomeResult e).2 = true) := by
  refine ⟨?_, ?_, ?_⟩ <;> intro e h <;>
    simp only [ComSerial.WriteSomeResult] <;>
    split_ifs with h1 h2 <;> first | rfl | omega

/-- Witness for C4: concrete environments with pending counts 5, a failed
query, and 0. -/
theorem c4_writesome_backpressure_witness :
    (0 : Int) < ComSerial.pending_for_write ⟨true, 5, ErrorCode.ok, 4⟩ ∧
    ComSerial.WriteSomeResult ⟨true, 5, ErrorCode.ok, 4⟩ = (0, false) ∧
    ComSerial.pending_for_write ⟨false, 0, ErrorCode.ok, 4⟩ = -1 ∧
    ComSerial.WriteSomeResult ⟨false, 0, ErrorCode.ok, 4⟩ = (-1, false) ∧
    ComSerial.pending_for_write ⟨true, 0, ErrorCode.ok, 4⟩ = 0 ∧
    (ComSerial.WriteSomeResult ⟨true, 0, ErrorCode.ok, 4⟩).2 = true :=
  ⟨by decide,
   c4_writesome_backpressure.1 ⟨true, 5, ErrorCode.ok, 4⟩ (by decide),
   by decide,
   c4_writesome_backpressure.2.1 ⟨false, 0, ErrorCode.ok, 4⟩ (by decide),
   by decide,
   c4_writesome_backpressure.2.2 ⟨true, 0, ErrorCode.ok, 4⟩ (by decide)⟩

/-- C6: ComSerial::ReadSome returns the available_for_read answer directly
(0 or -1) without performing any read when that answer is at most 0, and
performs the actual read exactly when the answer is positive. -/
theorem c6_readsome_availability :
    (∀ e : SerialReadEnv, ComSerial.available_for_read e ≤ 0 →
      ComSerial.ReadSomeResult e = (ComSerial.available_for_read e, false)) ∧
    (∀ e : SerialReadEnv, 0 < ComSerial.available_for_read e →
      (ComSerial.ReadSomeResult e).2 = true) := by
  constructor <;> intro e h <;>
    simp only [ComSerial.ReadSomeResult] <;>
    split_ifs <;> first | rfl | omega

/-- Witness for C6: concrete environments reporting no data, a failed
query, and 3 available bytes. -/
theorem c6_readsome_availability_witness :
    ComSerial.available_for_read ⟨true, 0, ErrorCode.ok, 0⟩ ≤ 0 ∧
    ComSerial.ReadSomeResult ⟨true, 0, ErrorCode.ok, 0⟩ = (0, false) ∧
    ComSerial.available_for_read ⟨false, 9, ErrorCode.ok, 0⟩ ≤ 0 ∧
    ComSerial.ReadSomeResult ⟨false, 9, ErrorCode.ok, 0⟩ = (-1, false) ∧
    (0 : Int) < ComSerial.available_for_read ⟨true, 3, ErrorCode.ok, 3⟩ ∧
    (ComSerial.ReadSomeResult ⟨true, 3, ErrorCode.ok, 3⟩).2 = true :=
  ⟨by decide,
   c6_readsome_availability.1 ⟨true, 0, ErrorCode.ok, 0⟩ (by decide),
   by decide,
   c6_readsome_availability.1 ⟨false, 9, ErrorCode.ok, 0⟩ (by decide),
   by decide,
   c6_readsome_availability.2 ⟨true, 3, ErrorCode.ok, 3⟩ (by decide)⟩

/-- C3 counterexample: the address string 0.0.0.0 is non-empty and
parsable — SetAddress accepts it — yet Open does not take the client
branch for it, refuting "any parsable non-empty address yields client
mode". -/
theorem c3_mode_selection_counterexample :
    ("0.0.0.0" : String) ≠ "" ∧
    (ComSocket.SetAddress "0.0.0.0" initSocket).1 = true ∧
    ComSocket.openMode (ComSocket.SetAddress "0.0.0.0" initSocket).2 ≠ Mode.client := by
  refine ⟨by decide, by rfl, by decide⟩

/-- C3 amended: the empty address yields server mode; a parsable non-empty
address yields client mode unless it denotes the unspecified address (all
zeros), in which case server mode results; an unparsable address is
rejected by SetAddress and makes construction fail with a configuration
error. -/
theorem c3_mode_selection_amended :
    (∀ st : SocketState, (ComSocket.SetAddress "" st).1 = true ∧
      ComSocket.openMode (ComSocket.SetAddress "" st).2 = Mode.server) ∧
    (∀ (s : String) (st : SocketState) (a : IPAddress), s ≠ "" →
      fromDottedQuad s = some a → a.isUnspecified = false →
      (ComSocket.SetAddress s st).1 = true ∧
      ComSocket.openMode (ComSocket.SetAddress s st).2 = Mode.client) ∧
    (∀ (s : String) (st : SocketState) (a : IPAddress), s ≠ "" →
      fromDottedQuad s = some a → a.isUnspecified = true →
      (ComSocket.SetAddress s st).1 = true ∧
      ComSocket.openMode (ComSocket.SetAddress s st).2 = Mode.server) ∧
    (∀ (s : String) (st : SocketState), s ≠ "" → fromDottedQuad s = none →
      (ComSocket.SetAddress s st).1 = false ∧
      ∀ (p t : Nat), isConfigError (ComSocket.construct s p t) = true) := by
  refine ⟨?_, ?_, ?_, ?_⟩
  · intro st
    constructor <;>
      simp [ComSocket.SetAddress, ComSocket.openMode, IPAddress.isUnspecified]
  · intro s st a hs hp hu
    constructor <;> simp [ComSocket.SetAddress, hs, hp, ComSocket.openMode, hu]
  · intro s st a hs hp hu
    constructor <;> simp [ComSocket.SetAddress, hs, hp, ComSocket.openMode, hu]
  · intro s st hs hp
    refine ⟨by simp [ComSocket.SetAddress, hs, hp], ?_⟩
    intro p t
    simp [ComSocket.construct, ComSocket.SetAddress, hs, hp, isConfigError]

/-- Witness for C3 amended: the client clause at 192.168.1.100 and the
rejection clause at a non-address string. -/
theorem c3_mode_selection_amended_witness :
    ("192.168.1.100" : String) ≠ "" ∧
    fromDottedQuad "192.168.1.100" = some (IPAddress.v4 192 168 1 100) ∧
    (IPAddress.v4 192 168 1 100).isUnspecified = false ∧
    ComSocket.openMode (ComSocket.SetAddress "192.168.1.100" initSocket).2 = Mode.client ∧
    ("bad" : String) ≠ "" ∧
    fromDottedQuad "bad" = none ∧
    isConfigError (ComSocket.construct "bad" 3444 1000) = true :=
  ⟨by decide, by rfl, by rfl,
   (c3_mode_selection_amended.2.1 "192.168.1.100" initSocket
      (IPAddress.v4 192 168 1 100) (by decide) (by rfl) rfl).2,
   by decide, by rfl,
   (c3_mode_selection_amended.2.2.2 "bad" initSocket (by decide) (by rfl)).2 3444 1000⟩

/-- C9: any non-empty address string parsing to the unspecified address is
accepted by SetAddress, yet GetAddress afterwards returns the empty string
(so the set/get round-trip fails) and Open takes the server branch. -/
theorem c9_unspecified_address_roundtrip (s : String) (st : SocketState)
    (a : IPAddress) (hs : s ≠ "") (hp : fromDottedQuad s = some a)
    (hu : a.isUnspecified = true) :
    (ComSocket.SetAddress s st).1 = true ∧
    ComSocket.GetAddress (ComSocket.SetAddress s st).2 = "" ∧
    ComSocket.openMode (ComSocket.SetAddress s st).2 = Mode.server ∧
    ComSocket.GetAddress (ComSocket.SetAddress s st).2 ≠ s := by
  have hs2 : ("" : String) ≠ s := fun h => hs h.symm
  refine ⟨?_, ?_, ?_, ?_⟩ <;>
    simp [ComSocket.SetAddress, hs, hp, ComSocket.GetAddress,
          ComSocket.openMode, hu, hs2]

/-- Witness for C9: the address 0.0.0.0. -/
theorem c9_unspecified_address_roundtrip_witness :
    ("0.0.0.0" : String) ≠ "" ∧
    fromDottedQuad "0.0.0.0" = some (IPAddress.v4 0 0 0 0) ∧
    (IPAddress.v4 0 0 0 0).isUnspecified = true ∧
    ComSocket.GetAddress (ComSocket.SetAddress "0.0.0.0" initSocket).2 = "" ∧
    ComSocket.GetAddress (ComSocket.SetAddress "0.0.0.0" initSocket).2 ≠ "0.0.0.0" :=
  ⟨by decide, by rfl, by rfl,
   (c9_unspecified_address_roundtrip "0.0.0.0" initSocket (IPAddress.v4 0 0 0 0)
      (by decide) (by rfl) rfl).2.1,
   (c9_unspecified_address_roundtrip "0.0.0.0" initSocket (IPAddress.v4 0 0 0 0)
      (by decide) (by rfl) rfl).2.2.2⟩

/-- ComSerial::SetParity succeeds exactly on the six accepted character
codes (both cases of e, o, n), whatever state it is applied to. -/
theorem setParity_true_iff (c : Char) (st : SerialState) :
    (ComSerial.SetParity c st).1 = true ↔
      (c = 'e' ∨ c = 'E' ∨ c = 'o' ∨ c = 'O' ∨ c = 'n' ∨ c = 'N') := by
  simp only [ComSerial.SetParity]
  split_ifs with h1 h2 h3 <;> simp <;> tauto

/-- C7 counterexample: the upper-case code E is accepted by SetParity even
though it differs from each of e, o and n, refuting "returns false for
every other character". -/
theorem c7_parity_counterexample :
    (ComSerial.SetParity 'E' initSerial).1 = true ∧
    ('E' : Char) ≠ 'e' ∧ ('E' : Char) ≠ 'o' ∧ ('E' : Char) ≠ 'n' := by
  refine ⟨by rfl, by decide, by decide, by decide⟩

/-- C7 amended: SetParity returns true exactly for the character codes e,
E, o, O, n and N (case-insensitive) and false for every other character;
a parity value outside this set supplied at construction makes
construction fail with a configuration error (the constructor performs no
operating-system call on any path). -/
theorem c7_parity_validation_amended :
    (∀ (c : Char) (st : SerialState),
      (ComSerial.SetParity c st).1 = true ↔
        (c = 'e' ∨ c = 'E' ∨ c = 'o' ∨ c = 'O' ∨ c = 'n' ∨ c = 'N')) ∧
    (∀ (d : String) (b db sb : Nat) (c f : Char) (t : Nat),
      ¬(c = 'e' ∨ c = 'E' ∨ c = 'o' ∨ c = 'O' ∨ c = 'n' ∨ c = 'N') →
      isConfigError (ComSerial.construct d b db sb c f t) = true) := by
  refine ⟨fun c st => setParity_true_iff c st, ?_⟩
  intro d b db sb c f t hc
  have hpar : ∀ s : SerialState, (ComSerial.SetParity c s).1 = false := by
    intro s
    cases hb : (ComSerial.SetParity c s).1
    · rfl
    · exact absurd ((setParity_true_iff c s).mp hb) hc
  simp only [ComSerial.construct]
  split_ifs <;> simp_all [isConfigError, hpar]

/-- Witness for C7 amended: the code x is rejected and construction with
it fails. -/
theorem c7_parity_validation_amended_witness :
    ¬(('x' : Char) = 'e' ∨ ('x' : Char) = 'E' ∨ ('x' : Char) = 'o' ∨
      ('x' : Char) = 'O' ∨ ('x' : Char) = 'n' ∨ ('x' : Char) = 'N') ∧
    (ComSerial.SetParity 'e' initSerial).1 = true ∧
    isConfigError (ComSerial.construct "COM1" 38400 8 1 'x' 'h' 1000) = true :=
  ⟨by decide,
   (c7_parity_validation_amended.1 'e' initSerial).mpr (Or.inl rfl),
   c7_parity_validation_amended.2 "COM1" 38400 8 1 'x' 'h' 1000 (by decide)⟩

/-- The states a ComSerial instance can be in after a successful
construction: the result of the constructor followed by any sequence of
the state-changing public operations (each configuration setter, applied
to any argument, and Close). The remaining operations (Open, Read, Write,
ReadSome, WriteSome, Abort, Flush and the getters) do not modify the
stored line configuration. -/
inductive SerialReachable : SerialState → Prop where
  | constructed (d : String) (b db sb : Nat) (p f : Char) (t : Nat)
      (s : SerialState) (h : ComSerial.construct d b db sb p f t = Except.ok s) :
      SerialReachable s
  | stepDevice (d : String) (s : SerialState) (h : SerialReachable s) :
      SerialReachable (ComSerial.SetDevice d s).2
  | stepBaudRate (b : Nat) (s : SerialState) (h : SerialReachable s) :
      SerialReachable (ComSerial.SetBaudRate b s).2
  | stepDataBits (n : Nat) (s : SerialState) (h : SerialReachable s) :
      SerialReachable (ComSerial.SetDataBits n s).2
  | stepStopBits (n : Nat) (s : SerialState) (h : SerialReachable s) :
      SerialReachable (ComSerial.SetStopBits n s).2
  | stepParity (c : Char) (s : SerialState) (h : SerialReachable s) :
      SerialReachable (ComSerial.SetParity c s).2
  | stepFlowControl (c : Char) (s : SerialState) (h : SerialReachable s) :
      SerialReachable (ComSerial.SetFlowControl c s).2
  | stepReadTimeout (t : Nat) (s : SerialState) (h : SerialReachable s) :
      SerialReachable (ComSerial.SetReadTimeout t s).2
  | stepWriteTimeout (t : Nat) (s : SerialState) (h : SerialReachable s) :
      SerialReachable (ComSerial.SetWriteTimeout t s).2
  | stepClose (ec : ErrorCode) (s : SerialState) (h : SerialReachable s) :
      SerialReachable (ComSerial.Close ec s).2

/-- C10: in every reachable state of a ComSerial the stored line
configuration reads back as a valid code — GetStopBits in
one/two/one-and-a-half, GetParity in e/o/n, GetFlowControl in h/s/n,
never the 0 or null-character fallback. In the embedding the stored
option fields range over the three enumerated values of the boost option
types, exactly as in the source, where every setter either rejects its
argument or assigns one of the enumerators; the fallback branches of the
getters are therefore unreachable. -/
theorem c10_line_config_invariant (s : SerialState) (_reach : SerialReachable s) :
    (ComSerial.GetStopBits s = 1 ∨ ComSerial.GetStopBits s = 2 ∨
      ComSerial.GetStopBits s = 3) ∧
    (ComSerial.GetParity s = 'e' ∨ ComSerial.GetParity s = 'o' ∨
      ComSerial.GetParity s = 'n') ∧
    (ComSerial.GetFlowControl s = 'h' ∨ ComSerial.GetFlowControl s = 's' ∨
      ComSerial.GetFlowControl s = 'n') := by
  obtain ⟨dev, br, db, sb, p, f, rt, wt, op⟩ := s
  cases sb <;> cases p <;> cases f <;>
    simp [ComSerial.GetStopBits, ComSerial.GetParity, ComSerial.GetFlowControl]

/-- The state produced by constructing a ComSerial with the example
configuration COM1, 38400 baud, 8 data bits, 1 stop bit, no parity,
hardware flow control, 1000 ms timeouts. -/
def serialExample : SerialState :=
  ⟨"COM1", 38400, 8, StopBits.one, Parity.none, FlowControl.hardware, 1000, 1000, false⟩

/-- Witness for C10: the example configuration is reachable by
construction and satisfies the invariant. -/
theorem c10_line_config_invariant_witness :
    (ComSerial.GetStopBits serialExample = 1 ∨ ComSerial.GetStopBits serialExample = 2 ∨
      ComSerial.GetStopBits serialExample = 3) ∧
    (ComSerial.GetParity serialExample = 'e' ∨ ComSerial.GetParity serialExample = 'o' ∨
      ComSerial.GetParity serialExample = 'n') ∧
    (ComSerial.GetFlowControl serialExample = 'h' ∨ ComSerial.GetFlowControl serialExample = 's' ∨
      ComSerial.GetFlowControl serialExample = 'n') :=
  c10_line_config_invariant serialExample
    (SerialReachable.constructed "COM1" 38400 8 1 'n' 'h' 1000 serialExample (by rfl))

/-- The state produced by constructing a ComSocket in client mode with
address 127.0.0.1, port 3444 and timeout 1000 ms. -/
def clientExample : SocketState :=
  ⟨IPAddress.v4 127 0 0 1, 3444, 1000, 1000, 1000, false⟩

/-- C1: evaluation of the code at the failing scenario. In client mode,
when the open-timeout elapses first, the expired timer handler cancels the
pending connect, which completes with operation_aborted — yet open_handler
records that completion as success (ret_code = true), and with the
subsequent switch to non-blocking mode succeeding (the socket descriptor
exists, async_connect opened it before connecting) Open() returns true,
not false as the specification requires. -/
theorem c1_open_timeout_not_reported_as_failure :
    ComSocket.construct "127.0.0.1" 3444 1000 = Except.ok clientExample ∧
    clientExample.address.isUnspecified = false ∧
    ComSocket.timeout_handler_cancels ErrorCode.ok = true ∧
    ComSocket.open_handler ErrorCode.operationAborted = true ∧
    ComSocket.openResult clientExample
      ⟨true, OpenFirst.timerFired, ErrorCode.ok, ErrorCode.ok⟩ = true :=
  ⟨by rfl, by rfl, by rfl, by rfl, by rfl⟩
